import Mathlib

/-!
Shallow embedding of the nxp_simtemp virtual temperature sensor driver
(kernel module sources: nxp_simtemp.c with headers nxp_simtemp.h and
nxp_simtemp_ioctl.h).

Modelling conventions:
- Machine integers are modelled as Nat or Int.  The u32 value produced by
  get_random_bytes is an explicit input reduced modulo 2^32; the
  head and tail indices of the ring buffer are kept below 64 by the
  masking the code itself performs, and simtemp_ringbuf_count reproduces
  the u32 two complement subtraction explicitly with a modulus of 2^32.
  The u64 statistics counters and s32 temperatures never approach their
  width in any scenario considered here (the spec accepts wraparound as a
  long-run behavior), so they are plain Nat and Int.
- Kernel plumbing that carries no sample-pipeline state (platform device,
  miscdevice, locks, the wait queue object) is omitted from the state
  record; the hrtimer is modelled by the single field timer_period,
  holding the period the timer was last armed with (hrtimer_start and
  hrtimer_forward_now both set it).
- Fallible external effects are explicit inputs: the outcome of
  copy_to_user is a Bool, the outcome of wait_event_interruptible on an
  empty buffer is the Bool interrupted, the O_NONBLOCK file flag is a
  Bool.  Error returns keep their errno values (negative Int).
-/

namespace NxpSimtemp

/-- Linux errno values used by the driver. -/
def EINVAL : Int := 22
def EAGAIN : Int := 11
def EFAULT : Int := 14
def ENOSPC : Int := 28
def ERESTARTSYS : Int := 512

/-- struct simtemp_sample from nxp_simtemp_ioctl.h: u64 timestamp_ns,
s32 temp_mC, u32 flags, packed.  -/
structure Sample where
  timestamp_ns : Nat
  temp_mC : Int
  flags : Nat
  deriving DecidableEq, Repr

/-- The wire size of struct simtemp_sample: 8 + 4 + 4 bytes, packed, so no
padding.  -/
def simtemp_sample_size : Nat := 8 + 4 + 4

/-- SIMTEMP_FLAG_NEW_SAMPLE = 1 <<< 0.  -/
def SIMTEMP_FLAG_NEW_SAMPLE : Nat := 1

/-- SIMTEMP_FLAG_THRESHOLD_CROSSED = 1 <<< 1.  -/
def SIMTEMP_FLAG_THRESHOLD_CROSSED : Nat := 2

/-- RING_BUFFER_SIZE from nxp_simtemp.h.  -/
def RING_BUFFER_SIZE : Nat := 64

/-- RING_BUFFER_MASK = RING_BUFFER_SIZE - 1; `x &&& RING_BUFFER_MASK` on a
u32 equals `x % RING_BUFFER_SIZE` because the size is a power of two.  -/
def RING_BUFFER_MASK : Nat := RING_BUFFER_SIZE - 1

/-- Configuration limits from nxp_simtemp_ioctl.h.  -/
def SIMTEMP_SAMPLING_MS_MIN : Nat := 1
def SIMTEMP_SAMPLING_MS_MAX : Nat := 10000
def SIMTEMP_THRESHOLD_MC_MIN : Int := -40000
def SIMTEMP_THRESHOLD_MC_MAX : Int := 125000

/-- Defaults from nxp_simtemp.h.  -/
def DEFAULT_SAMPLING_MS : Nat := 100
def DEFAULT_THRESHOLD_MC : Int := 45000

/-- enum simtemp_mode tags.  The enum is carried as a plain tag so that
unrecognized values (the default arm of the switch) are representable.  -/
def SIMTEMP_MODE_NORMAL : Nat := 0
def SIMTEMP_MODE_NOISY : Nat := 1
def SIMTEMP_MODE_RAMP : Nat := 2

/-- struct simtemp_ringbuf: a 64-slot array of samples indexed by head and
tail.  The array is modelled as a total function from index to Sample;
the code only ever indexes it with head or tail, both kept below 64.  -/
structure Ringbuf where
  buffer : Nat → Sample
  head : Nat
  tail : Nat

/-- struct simtemp_stats.  -/
structure Stats where
  total_samples : Nat
  threshold_alerts : Nat
  read_count : Nat
  poll_count : Nat
  last_error : Nat
  deriving DecidableEq, Repr

/-- simtemp_ringbuf_init: head = tail = 0, buffer zeroed.  -/
def simtemp_ringbuf_init : Ringbuf :=
  { buffer := fun _ => { timestamp_ns := 0, temp_mC := 0, flags := 0 }
    head := 0
    tail := 0 }

/-- simtemp_ringbuf_empty.  -/
def simtemp_ringbuf_empty (rb : Ringbuf) : Bool :=
  rb.head == rb.tail

/-- simtemp_ringbuf_count: `(head - tail) &&& RING_BUFFER_MASK` where the
subtraction is u32 arithmetic; since 64 divides 2^32 the mask of the
wrapped difference is the wrapped difference mod 64.  -/
def simtemp_ringbuf_count (rb : Ringbuf) : Nat :=
  ((rb.head + 2 ^ 32 - rb.tail) % 2 ^ 32) % RING_BUFFER_SIZE

/-- simtemp_ringbuf_put: refuse (−ENOSPC) if advancing head would catch
tail, otherwise store the sample at head and advance head.  Returns the
updated buffer and the C return value.  -/
def simtemp_ringbuf_put (rb : Ringbuf) (sample : Sample) : Ringbuf × Int :=
  let head := rb.head
  let next_head := (head + 1) % RING_BUFFER_SIZE
  if next_head == rb.tail then
    (rb, -ENOSPC)
  else
    ({ rb with buffer := Function.update rb.buffer head sample
               head := next_head }, 0)

/-- simtemp_ringbuf_get: none models the −EAGAIN return on an empty
buffer; otherwise the sample at tail is returned and tail advances.  -/
def simtemp_ringbuf_get (rb : Ringbuf) : Option (Ringbuf × Sample) :=
  if simtemp_ringbuf_empty rb then
    none
  else
    some ({ rb with tail := (rb.tail + 1) % RING_BUFFER_SIZE },
          rb.buffer rb.tail)

/-- struct simtemp_device (sample-pipeline state only; see the file
header for what is omitted and how the hrtimer is modelled).  -/
structure SimtempDevice where
  sampling_ms : Nat
  sampling_period : Nat
  timer_period : Nat
  ringbuf : Ringbuf
  threshold_mC : Int
  mode : Nat
  current_temp_mC : Int
  ramp_direction : Bool
  stats : Stats
  threshold_crossed : Bool
  device_open : Bool

/-- The device state established by simtemp_probe with no device-tree
overrides: defaults, temperature 40000, ramp direction up, empty ring
buffer, zero statistics, timer armed at the default period.  -/
def probeInit : SimtempDevice :=
  { sampling_ms := DEFAULT_SAMPLING_MS
    sampling_period := DEFAULT_SAMPLING_MS
    timer_period := DEFAULT_SAMPLING_MS
    ringbuf := simtemp_ringbuf_init
    threshold_mC := DEFAULT_THRESHOLD_MC
    mode := SIMTEMP_MODE_NORMAL
    current_temp_mC := 40000
    ramp_direction := true
    stats := { total_samples := 0, threshold_alerts := 0, read_count := 0
               poll_count := 0, last_error := 0 }
    threshold_crossed := false
    device_open := false }

/-- simtemp_generate_temperature.  The u32 from get_random_bytes is the
explicit input `random` (reduced mod 2^32 as a u32).  Mirrors the switch
on dev->mode, including the clamping in the noisy and ramp arms and the
default arm returning 45000.  Returns the updated device (the ramp arm
mutates current_temp_mC and ramp_direction in place) and the s32 result.  -/
def simtemp_generate_temperature (dev : SimtempDevice) (random : Nat) :
    SimtempDevice × Int :=
  let r : Int := (random % 2 ^ 32 : Nat)
  match dev.mode with
  | 0 =>
    (dev, 45000 + (r % 4000 - 2000))
  | 1 =>
    let t := 45000 + (r % 30000 - 15000)
    let t := if t < 30000 then 30000 else t
    let t := if t > 60000 then 60000 else t
    (dev, t)
  | 2 =>
    if dev.ramp_direction then
      let t := dev.current_temp_mC + 500
      if t ≥ 70000 then
        ({ dev with current_temp_mC := 70000, ramp_direction := false }, 70000)
      else
        ({ dev with current_temp_mC := t }, t)
    else
      let t := dev.current_temp_mC - 500
      if t ≤ 30000 then
        ({ dev with current_temp_mC := 30000, ramp_direction := true }, 30000)
      else
        ({ dev with current_temp_mC := t }, t)
  | _ =>
    (dev, 45000)

/-- simtemp_timer_callback.  Inputs: the device, the ktime_get_ns value
for the tick, and the u32 random draw consumed by the generator.  Mirrors
the callback body: generate, build the sample with the new-sample flag,
run the threshold edge detector (setting the crossed flag and counting an
alert only on an upward edge), push into the ring buffer, count the
sample.  Returns the updated device and the local ret from
simtemp_ringbuf_put (0, or −ENOSPC when the sample was dropped; the code
only logs that case).  hrtimer_forward_now re-arms the timer with
dev->sampling_period.  -/
def simtemp_timer_callback (dev : SimtempDevice) (now_ns : Nat)
    (random : Nat) : SimtempDevice × Int :=
  let (dev, temp_mC) := simtemp_generate_temperature dev random
  let flags := SIMTEMP_FLAG_NEW_SAMPLE
  let (dev, flags) :=
    if temp_mC > dev.threshold_mC then
      if ! dev.threshold_crossed then
        ({ dev with
             threshold_crossed := true
             stats := { dev.stats with
                          threshold_alerts := dev.stats.threshold_alerts + 1 } },
         flags ||| SIMTEMP_FLAG_THRESHOLD_CROSSED)
      else
        (dev, flags)
    else
      ({ dev with threshold_crossed := false }, flags)
  let sample : Sample := { timestamp_ns := now_ns, temp_mC := temp_mC
                           flags := flags }
  let (rb, ret) := simtemp_ringbuf_put dev.ringbuf sample
  let dev := { dev with ringbuf := rb }
  let dev := { dev with
                 stats := { dev.stats with
                              total_samples := dev.stats.total_samples + 1 } }
  let dev := { dev with timer_period := dev.sampling_period }
  (dev, ret)

/-- simtemp_read.  Inputs: the device, the userspace byte count, the
O_NONBLOCK flag, whether a signal interrupts the blocking wait while the
buffer is empty, and whether copy_to_user succeeds.  Returns the updated
device, the syscall return value, and the sample delivered to userspace
(none on error paths).  In the blocking branch, wait_event_interruptible
returns immediately when the buffer is already non-empty; when it is
empty the wait either ends interrupted (−ERESTARTSYS) or, in this
single-threaded model where no producer can run during the wait, falls
through to the defensive re-check that returns −EAGAIN.  -/
def simtemp_read (dev : SimtempDevice) (count : Nat)
    (nonblock interrupted copy_ok : Bool) :
    SimtempDevice × Int × Option Sample :=
  if count < simtemp_sample_size then
    (dev, -EINVAL, none)
  else
    let afterGet : Option (SimtempDevice × Sample) :=
      match simtemp_ringbuf_get dev.ringbuf with
      | none => none
      | some (rb, sample) => some ({ dev with ringbuf := rb }, sample)
    if nonblock then
      match afterGet with
      | none => (dev, -EAGAIN, none)
      | some (dev, sample) =>
        let dev := { dev with
                       stats := { dev.stats with
                                    read_count := dev.stats.read_count + 1 } }
        if copy_ok then (dev, simtemp_sample_size, some sample)
        else (dev, -EFAULT, none)
    else
      if simtemp_ringbuf_empty dev.ringbuf ∧ interrupted then
        (dev, -ERESTARTSYS, none)
      else
        match afterGet with
        | none => (dev, -EAGAIN, none)
        | some (dev, sample) =>
          let dev := { dev with
                         stats := { dev.stats with
                                      read_count := dev.stats.read_count + 1 } }
          if copy_ok then (dev, simtemp_sample_size, some sample)
          else (dev, -EFAULT, none)

/-- sampling_ms_show: prints sdev->sampling_ms.  -/
def sampling_ms_show (sdev : SimtempDevice) : Nat :=
  sdev.sampling_ms

/-- sampling_ms_store, after a successful kstrtouint parse of `val`:
reject values outside [SIMTEMP_SAMPLING_MS_MIN, SIMTEMP_SAMPLING_MS_MAX]
with −EINVAL leaving the device untouched; otherwise update sampling_ms
and sampling_period and re-arm the timer with the new period
(hrtimer_cancel then hrtimer_start, modelled by timer_period).  The C
function returns the consumed byte count on success; success is modelled
as return value 0.  -/
def sampling_ms_store (sdev : SimtempDevice) (val : Nat) :
    SimtempDevice × Int :=
  if val < SIMTEMP_SAMPLING_MS_MIN ∨ val > SIMTEMP_SAMPLING_MS_MAX then
    (sdev, -EINVAL)
  else
    ({ sdev with sampling_ms := val
                 sampling_period := val
                 timer_period := val }, 0)

/-- threshold_mC_show: prints sdev->threshold_mC.  -/
def threshold_mC_show (sdev : SimtempDevice) : Int :=
  sdev.threshold_mC

/-- threshold_mC_store, after a successful kstrtoint parse of `val`:
reject values outside [SIMTEMP_THRESHOLD_MC_MIN, SIMTEMP_THRESHOLD_MC_MAX]
with −EINVAL leaving the device untouched; otherwise update
threshold_mC.  Success is modelled as return value 0 (the C function
returns the consumed byte count).  -/
def threshold_mC_store (sdev : SimtempDevice) (val : Int) :
    SimtempDevice × Int :=
  if val < SIMTEMP_THRESHOLD_MC_MIN ∨ val > SIMTEMP_THRESHOLD_MC_MAX then
    (sdev, -EINVAL)
  else
    ({ sdev with threshold_mC := val }, 0)

/-! Scenario drivers: sequential compositions of the embedded operations,
used to state the testable properties.  -/

/-- Run one timer tick per entry of `randoms` (timestamps fixed at 0),
threading the device state.  -/
def foldTicks (dev : SimtempDevice) (randoms : List Nat) : SimtempDevice :=
  randoms.foldl (fun d r => (simtemp_timer_callback d 0 r).1) dev

/-- Run `n` timer ticks (timestamp and random fixed at 0), returning the
final device and how many of the ticks had their sample refused by
simtemp_ringbuf_put (the only record of a drop is that return value).  -/
def runTicks (dev : SimtempDevice) : Nat → SimtempDevice × Nat
  | 0 => (dev, 0)
  | n + 1 =>
    let (dev', ret) := simtemp_timer_callback dev 0 0
    let (devFin, drops) := runTicks dev' n
    (devFin, (if ret = 0 then 0 else 1) + drops)

/-- Push the samples of `l` in order, returning the final buffer and the
number of pushes refused with −ENOSPC.  -/
def pushList (rb : Ringbuf) : List Sample → Ringbuf × Nat
  | [] => (rb, 0)
  | s :: l =>
    let (rb', ret) := simtemp_ringbuf_put rb s
    let (rbFin, fails) := pushList rb' l
    (rbFin, (if ret = 0 then 0 else 1) + fails)

/-- Pop `n` times in order, returning the final buffer and the outcomes
(none for an −EAGAIN pop of an empty buffer).  -/
def popN (rb : Ringbuf) : Nat → Ringbuf × List (Option Sample)
  | 0 => (rb, [])
  | n + 1 =>
    match simtemp_ringbuf_get rb with
    | none =>
      let (rbFin, l) := popN rb n
      (rbFin, none :: l)
    | some (rb', s) =>
      let (rbFin, l) := popN rb' n
      (rbFin, some s :: l)

/-- The probe-initial device switched to ramp mode (as mode_store does on
input "ramp"): temperature 40000, direction up.  -/
def rampStart : SimtempDevice :=
  { probeInit with mode := SIMTEMP_MODE_RAMP }

/-- The probe-initial device switched to noisy mode (as mode_store does on
input "noisy").  -/
def noisyStart : SimtempDevice :=
  { probeInit with mode := SIMTEMP_MODE_NOISY }

/-- Iterate the generator from a start state, ticking with random draw 0
(the ramp arm ignores the draw).  -/
def genSeq (dev : SimtempDevice) : Nat → SimtempDevice
  | 0 => dev
  | k + 1 => (simtemp_generate_temperature (genSeq dev k) 0).1

/-- The temperature produced by the k-th generator tick (k ≥ 1).  -/
def genTemp (dev : SimtempDevice) (k : Nat) : Int :=
  (simtemp_generate_temperature (genSeq dev (k - 1)) 0).2

/-- The triangular wave the spec predicts for ramp mode from 40000 going
up: 40000 + 500·k up to tick 60 (value 70000), then decreasing by 500
per tick down to 30000 at tick 140.  -/
def rampExpected (k : Nat) : Int :=
  if k ≤ 60 then 40000 + 500 * (k : Int) else 70000 - 500 * ((k : Int) - 60)

/-- Random draws that make the noisy generator emit exactly the latch
test sequence [40000, 46000, 47000, 44000, 46000]: the noisy arm maps a
draw r to 45000 + r % 30000 − 15000 (unclamped for these values).  -/
def latchRandoms : List Nat := [10000, 16000, 17000, 14000, 16000]

/-- Write the samples of a list at successive indices of the buffer
function, starting at index h; the specification-side image of a run of
successful puts.  -/
def writeSeq (f : Nat → Sample) (h : Nat) : List Sample → Nat → Sample
  | [] => f
  | s :: l => writeSeq (Function.update f h s) (h + 1) l

/-! Helper lemmas shared by the claim theorems.  -/

/-- The generator never touches the sampling period.  -/
lemma generate_sampling_period (dev : SimtempDevice) (r : Nat) :
    (simtemp_generate_temperature dev r).1.sampling_period =
      dev.sampling_period := by
  unfold simtemp_generate_temperature
  split
  · rfl
  · rfl
  · split
    · dsimp only
      split <;> rfl
    · dsimp only
      split <;> rfl
  · rfl

/-- A timer tick re-arms the timer with the sampling period the device
held when the tick ran (hrtimer_forward_now with dev->sampling_period).  -/
lemma timer_callback_timer_period (dev : SimtempDevice) (now r : Nat) :
    (simtemp_timer_callback dev now r).1.timer_period =
      dev.sampling_period := by
  have hgen := generate_sampling_period dev r
  unfold simtemp_timer_callback
  rcases hg : simtemp_generate_temperature dev r with ⟨d1, temp⟩
  rw [hg] at hgen
  dsimp only at hgen ⊢
  split
  · split <;> dsimp only <;> exact hgen
  · exact hgen

/-- Pushing a list into a linear (tail-zero, no-wraparound) region of the
buffer succeeds entirely and writes the list at successive indices.  -/
lemma pushList_linear (l : List Sample) : ∀ (f : Nat → Sample) (h : Nat),
    h + l.length ≤ 63 →
    pushList { buffer := f, head := h, tail := 0 } l =
      ({ buffer := writeSeq f h l, head := h + l.length, tail := 0 }, 0) := by
  induction l with
  | nil =>
    intro f h hle
    simp [pushList, writeSeq]
  | cons s l ih =>
    intro f h hle
    have hlen : h + (s :: l).length = (h + 1) + l.length := by
      simp [List.length_cons]; omega
    have hmod : (h + 1) % RING_BUFFER_SIZE = h + 1 := by
      apply Nat.mod_eq_of_lt
      have : l.length ≥ 0 := Nat.zero_le _
      simp [List.length_cons] at hle
      unfold RING_BUFFER_SIZE
      omega
    have hput : simtemp_ringbuf_put { buffer := f, head := h, tail := 0 } s =
        ({ buffer := Function.update f h s, head := h + 1, tail := 0 }, 0) := by
      unfold simtemp_ringbuf_put
      simp [hmod]
    unfold pushList
    rw [hput]
    dsimp only
    rw [ih (Function.update f h s) (h + 1)
      (by simp only [List.length_cons] at hle; omega)]
    simp [writeSeq, hlen]
    omega

/-- Indices below the write start are untouched by writeSeq.  -/
lemma writeSeq_lt (l : List Sample) : ∀ (f : Nat → Sample) (h i : Nat),
    i < h → writeSeq f h l i = f i := by
  induction l with
  | nil => intro f h i _; rfl
  | cons s l ih =>
    intro f h i hi
    unfold writeSeq
    rw [ih _ (h + 1) i (by omega)]
    exact Function.update_noteq (by omega) _ _

/-- Reading a written region back, in order, recovers the written list.  -/
lemma writeSeq_read (l : List Sample) : ∀ (f : Nat → Sample) (h : Nat),
    (List.range l.length).map (fun j => some (writeSeq f h l (h + j))) =
      l.map some := by
  induction l with
  | nil => intro f h; rfl
  | cons s l ih =>
    intro f h
    rw [List.length_cons, List.range_succ_eq_map]
    simp only [List.map_cons, List.map_map, Function.comp_def, List.map_cons,
      List.cons.injEq]
    constructor
    · show some (writeSeq (Function.update f h s) (h + 1) l (h + 0)) = some s
      rw [writeSeq_lt l _ (h + 1) (h + 0) (by omega)]
      simp
    · have heq : (fun j => some (writeSeq f h (s :: l) (h + Nat.succ j))) =
          fun j => some (writeSeq (Function.update f h s) (h + 1) l ((h + 1) + j)) := by
        funext j
        have harith : h + Nat.succ j = (h + 1) + j := by omega
        rw [harith]
        rfl
      rw [heq, ih]

/-- Popping n times from a linear region [tail, head) with no wraparound
reads successive buffer slots and advances tail.  -/
lemma popN_linear : ∀ (n : Nat) (f : Nat → Sample) (H t : Nat),
    t + n ≤ H → H ≤ 63 →
    popN { buffer := f, head := H, tail := t } n =
      ({ buffer := f, head := H, tail := t + n },
       (List.range n).map (fun j => some (f (t + j)))) := by
  intro n
  induction n with
  | zero =>
    intro f H t _ _
    simp [popN]
  | succ n ih =>
    intro f H t hle hH
    have hne : (H == t) = false := by
      simp only [beq_eq_false_iff_ne, ne_eq]
      omega
    have hmod : (t + 1) % RING_BUFFER_SIZE = t + 1 := by
      apply Nat.mod_eq_of_lt
      unfold RING_BUFFER_SIZE
      omega
    have hget : simtemp_ringbuf_get { buffer := f, head := H, tail := t } =
        some ({ buffer := f, head := H, tail := t + 1 }, f t) := by
      unfold simtemp_ringbuf_get simtemp_ringbuf_empty
      simp [hne, hmod]
    unfold popN
    rw [hget]
    dsimp only
    rw [ih f H (t + 1) (by omega) hH]
    rw [List.range_succ_eq_map]
    simp only [List.map_cons, List.map_map, Function.comp_def, Prod.mk.injEq,
      List.cons.injEq, Ringbuf.mk.injEq]
    refine ⟨⟨trivial, trivial, by omega⟩, by simp, ?_⟩
    apply List.map_congr_left
    intro j _
    have harith : t + Nat.succ j = (t + 1) + j := by omega
    rw [harith]

/-! Claim theorems.  -/

set_option maxRecDepth 40000

/-- Claim C1, counterexample to the drop-indicator conjunct.  After 63
ticks from the ramp-mode start state the ring buffer is full; the 64th
tick has its push refused with −ENOSPC, yet the resulting device state
differs from the pre-tick state in no statistics counter except
total_samples — and total_samples also increments on a tick whose push
succeeds (the very first tick), so it does not indicate drops.  The
statistics record is the only set of counters in struct simtemp_device,
so no internal drop indicator increments: the code only logs the drop
with pr_debug and discards the put return value.  -/
theorem claim_C1_counterexample :
    (simtemp_timer_callback (runTicks rampStart 63).1 0 0).2 = -ENOSPC ∧
    (simtemp_timer_callback (runTicks rampStart 63).1 0 0).1.stats =
      { (runTicks rampStart 63).1.stats with
          total_samples := (runTicks rampStart 63).1.stats.total_samples + 1 } ∧
    (simtemp_timer_callback (runTicks rampStart 63).1 0 0).1.ringbuf.head =
      (runTicks rampStart 63).1.ringbuf.head ∧
    (simtemp_timer_callback (runTicks rampStart 63).1 0 0).1.ringbuf.tail =
      (runTicks rampStart 63).1.ringbuf.tail ∧
    (simtemp_timer_callback rampStart 0 0).2 = 0 ∧
    (simtemp_timer_callback rampStart 0 0).1.stats.total_samples =
      rampStart.stats.total_samples + 1 := by
  refine ⟨by decide, by decide, by decide, by decide, by decide, by decide⟩

/-- Claim C1, amended: when the producer pushes into the full 64-slot
ring buffer, the incoming sample is dropped and the push reports Full
(−ENOSPC), the oldest buffered entry is not evicted, and the drop is
only logged — no internal drop counter increments; concretely, 70 timer
ticks into an empty buffer with no intervening pops leave exactly 63
samples buffered with 7 pushes having reported Full, and the oldest
buffered entry is still the first pushed sample (temperature 40500 in
the deterministic ramp scenario).  -/
theorem claim_C1_amended_bounded_capacity :
    (runTicks rampStart 70).2 = 7 ∧
    simtemp_ringbuf_count (runTicks rampStart 70).1.ringbuf = 63 ∧
    (runTicks rampStart 70).1.ringbuf.tail = 0 ∧
    (runTicks rampStart 70).1.ringbuf.buffer 0 =
      { timestamp_ns := 0, temp_mC := 40500, flags := SIMTEMP_FLAG_NEW_SAMPLE } := by
  refine ⟨by decide, by decide, by decide, by decide⟩

/-- Claim C2: feeding the temperature sequence [40000, 46000, 47000,
44000, 46000] (produced by the noisy generator under the stated random
draws) with threshold 45000 sets the threshold-crossed flag and
increments threshold_alerts exactly on samples 2 and 5 — the emitted
samples carry flags [1, 3, 1, 1, 3] and the alert counter after each
tick reads [0, 1, 1, 1, 2].  -/
theorem claim_C2_latch_single_fire :
    ([0, 1, 2, 3, 4].map fun i =>
        ((foldTicks noisyStart latchRandoms).ringbuf.buffer i).temp_mC) =
      [40000, 46000, 47000, 44000, 46000] ∧
    ([0, 1, 2, 3, 4].map fun i =>
        ((foldTicks noisyStart latchRandoms).ringbuf.buffer i).flags) =
      [SIMTEMP_FLAG_NEW_SAMPLE,
       SIMTEMP_FLAG_NEW_SAMPLE ||| SIMTEMP_FLAG_THRESHOLD_CROSSED,
       SIMTEMP_FLAG_NEW_SAMPLE,
       SIMTEMP_FLAG_NEW_SAMPLE,
       SIMTEMP_FLAG_NEW_SAMPLE ||| SIMTEMP_FLAG_THRESHOLD_CROSSED] ∧
    ([1, 2, 3, 4, 5].map fun n =>
        (foldTicks noisyStart (latchRandoms.take n)).stats.threshold_alerts) =
      [0, 1, 1, 1, 2] := by
  refine ⟨by decide, by decide, by decide⟩

/-- Claim C3: in ramp mode from temperature 40000 going up, tick k
(1 ≤ k ≤ 140) generates the triangular wave 40000 + 500·k up to the
clamp at 70000 (tick 60), where the direction flips, then 500 less per
tick down to the clamp at 30000 (tick 140), where it flips back; and the
ramp arm ignores the random draw, so the sequence is fully reproducible
from the initial state.  -/
theorem claim_C3_ramp_determinism :
    (∀ k, 1 ≤ k → k ≤ 140 → genTemp rampStart k = rampExpected k) ∧
    (genSeq rampStart 60).current_temp_mC = 70000 ∧
    (genSeq rampStart 60).ramp_direction = false ∧
    (genSeq rampStart 140).current_temp_mC = 30000 ∧
    (genSeq rampStart 140).ramp_direction = true ∧
    (∀ (dev : SimtempDevice) (r₁ r₂ : Nat), dev.mode = SIMTEMP_MODE_RAMP →
      simtemp_generate_temperature dev r₁ = simtemp_generate_temperature dev r₂) := by
  refine ⟨by decide, by decide, by decide, by decide, by decide, ?_⟩
  intro dev r₁ r₂ hmode
  rw [show SIMTEMP_MODE_RAMP = 2 from rfl] at hmode
  unfold simtemp_generate_temperature
  split <;> simp_all

/-- Witness for claim C3 at k = 61 (first tick after the peak) and at a
concrete ramp-mode device with two different random draws.  -/
theorem claim_C3_ramp_determinism_witness :
    genTemp rampStart 61 = rampExpected 61 ∧
    simtemp_generate_temperature rampStart 5 =
      simtemp_generate_temperature rampStart 99 :=
  ⟨claim_C3_ramp_determinism.1 61 (by decide) (by decide),
   claim_C3_ramp_determinism.2.2.2.2.2 rampStart 5 99 rfl⟩

/-- Claim C4: for every sequence of N ≤ 63 pushes into an initially
empty ring buffer followed by N pops with nothing interleaved, every
push and pop succeeds and the popped samples equal the pushed samples in
push order.  -/
theorem claim_C4_fifo (l : List Sample) (hlen : l.length ≤ 63) :
    (pushList simtemp_ringbuf_init l).2 = 0 ∧
    (popN (pushList simtemp_ringbuf_init l).1 l.length).2 = l.map some := by
  have hpush := pushList_linear l
    (fun _ => { timestamp_ns := 0, temp_mC := 0, flags := 0 }) 0
    (by omega)
  have hinit : simtemp_ringbuf_init =
      { buffer := fun _ => { timestamp_ns := 0, temp_mC := 0, flags := 0 }
        head := 0, tail := 0 } := rfl
  rw [hinit, hpush]
  refine ⟨rfl, ?_⟩
  rw [popN_linear l.length _ (0 + l.length) 0 (by omega) (by omega)]
  exact writeSeq_read l _ 0

/-- Witness for claim C4 on a concrete two-sample sequence.  -/
theorem claim_C4_fifo_witness :
    ([{ timestamp_ns := 1, temp_mC := 41000, flags := 1 },
      { timestamp_ns := 2, temp_mC := 42000, flags := 1 }] : List Sample).length ≤ 63 ∧
    ((pushList simtemp_ringbuf_init
        [{ timestamp_ns := 1, temp_mC := 41000, flags := 1 },
         { timestamp_ns := 2, temp_mC := 42000, flags := 1 }]).2 = 0 ∧
     (popN (pushList simtemp_ringbuf_init
        [{ timestamp_ns := 1, temp_mC := 41000, flags := 1 },
         { timestamp_ns := 2, temp_mC := 42000, flags := 1 }]).1 2).2 =
       [{ timestamp_ns := 1, temp_mC := 41000, flags := 1 },
        { timestamp_ns := 2, temp_mC := 42000, flags := 1 }].map some) :=
  ⟨by decide, claim_C4_fifo _ (by decide)⟩

/-- Equation for the generator in normal mode.  -/
lemma generate_eq_normal (dev : SimtempDevice) (r : Nat) (h : dev.mode = 0) :
    simtemp_generate_temperature dev r =
      (dev, 45000 + (((r % 2 ^ 32 : Nat) : Int) % 4000 - 2000)) := by
  unfold simtemp_generate_temperature
  split <;> simp_all

/-- Equation for the generator in noisy mode.  -/
lemma generate_eq_noisy (dev : SimtempDevice) (r : Nat) (h : dev.mode = 1) :
    simtemp_generate_temperature dev r =
      (dev,
       let t := 45000 + (((r % 2 ^ 32 : Nat) : Int) % 30000 - 15000)
       let t := if t < 30000 then 30000 else t
       if t > 60000 then 60000 else t) := by
  unfold simtemp_generate_temperature
  split <;> simp_all

/-- Equation for the generator in ramp mode.  -/
lemma generate_eq_ramp (dev : SimtempDevice) (r : Nat) (h : dev.mode = 2) :
    simtemp_generate_temperature dev r =
      (if dev.ramp_direction then
        if dev.current_temp_mC + 500 ≥ 70000 then
          ({ dev with current_temp_mC := 70000, ramp_direction := false }, 70000)
        else
          ({ dev with current_temp_mC := dev.current_temp_mC + 500 },
           dev.current_temp_mC + 500)
      else
        if dev.current_temp_mC - 500 ≤ 30000 then
          ({ dev with current_temp_mC := 30000, ramp_direction := true }, 30000)
        else
          ({ dev with current_temp_mC := dev.current_temp_mC - 500 },
           dev.current_temp_mC - 500)) := by
  unfold simtemp_generate_temperature
  split <;> simp_all

/-- Equation for the generator on an unrecognized mode tag: the default
arm of the switch returns 45000 and leaves the device untouched.  -/
lemma generate_eq_default (dev : SimtempDevice) (r : Nat) (h0 : dev.mode ≠ 0)
    (h1 : dev.mode ≠ 1) (h2 : dev.mode ≠ 2) :
    simtemp_generate_temperature dev r = (dev, 45000) := by
  unfold simtemp_generate_temperature
  split <;> simp_all

/-- Claim C5: after a successful write of sampling period 50 the store
reports success, a read of the period returns 50, and the timer has been
re-armed with the new period before the store returns — and the next
tick re-arms with the new period as well, so it fires at the new period
rather than the old one.  -/
theorem claim_C5_config_round_trip (d : SimtempDevice) (now r : Nat) :
    (sampling_ms_store d 50).2 = 0 ∧
    sampling_ms_show (sampling_ms_store d 50).1 = 50 ∧
    (sampling_ms_store d 50).1.timer_period = 50 ∧
    (simtemp_timer_callback (sampling_ms_store d 50).1 now r).1.timer_period = 50 := by
  have hstore : sampling_ms_store d 50 =
      ({ d with sampling_ms := 50, sampling_period := 50, timer_period := 50 }, 0) := by
    unfold sampling_ms_store
    simp [SIMTEMP_SAMPLING_MS_MIN, SIMTEMP_SAMPLING_MS_MAX]
  refine ⟨by rw [hstore], by rw [hstore]; rfl, by rw [hstore], ?_⟩
  rw [hstore, timer_callback_timer_period]

/-- Claim C6: writing the out-of-range threshold 200000 returns the
validation error −EINVAL and leaves the device, in particular the value
a subsequent threshold read returns, unchanged.  -/
theorem claim_C6_reject_invalid_threshold (d : SimtempDevice) :
    threshold_mC_store d 200000 = (d, -EINVAL) ∧
    threshold_mC_show (threshold_mC_store d 200000).1 = threshold_mC_show d := by
  have h : threshold_mC_store d 200000 = (d, -EINVAL) := by
    unfold threshold_mC_store
    simp [SIMTEMP_THRESHOLD_MC_MIN, SIMTEMP_THRESHOLD_MC_MAX]
  exact ⟨h, by rw [h]⟩

/-- Claim C7: for every mode tag, the generator yields a value in that
mode documented range — normal in [43000, 47000), noisy in
[30000, 60000], ramp in [30000, 70000] (given the ramp state invariant,
which the ramp arm also preserves) — and an unrecognized tag fails
closed: it returns 45000 leaving the state untouched, a value the
normal-mode policy itself produces (draw 2000), never undefined
behavior.  -/
theorem claim_C7_generator_range (dev : SimtempDevice) (r : Nat)
    (hlo : 30000 ≤ dev.current_temp_mC) (hhi : dev.current_temp_mC ≤ 70000) :
    (dev.mode = SIMTEMP_MODE_NORMAL →
      43000 ≤ (simtemp_generate_temperature dev r).2 ∧
      (simtemp_generate_temperature dev r).2 < 47000) ∧
    (dev.mode = SIMTEMP_MODE_NOISY →
      30000 ≤ (simtemp_generate_temperature dev r).2 ∧
      (simtemp_generate_temperature dev r).2 ≤ 60000) ∧
    (dev.mode = SIMTEMP_MODE_RAMP →
      30000 ≤ (simtemp_generate_temperature dev r).2 ∧
      (simtemp_generate_temperature dev r).2 ≤ 70000 ∧
      30000 ≤ (simtemp_generate_temperature dev r).1.current_temp_mC ∧
      (simtemp_generate_temperature dev r).1.current_temp_mC ≤ 70000) ∧
    (dev.mode ≠ SIMTEMP_MODE_NORMAL → dev.mode ≠ SIMTEMP_MODE_NOISY →
      dev.mode ≠ SIMTEMP_MODE_RAMP →
      (simtemp_generate_temperature dev r).2 = 45000 ∧
      (simtemp_generate_temperature dev r).1 = dev ∧
      (simtemp_generate_temperature { dev with mode := SIMTEMP_MODE_NORMAL }
          2000).2 = (simtemp_generate_temperature dev r).2) := by
  refine ⟨?_, ?_, ?_, ?_⟩
  · intro h
    have hb1 : 0 ≤ ((r % 2 ^ 32 : Nat) : Int) % 4000 :=
      Int.emod_nonneg _ (by norm_num)
    have hb2 : ((r % 2 ^ 32 : Nat) : Int) % 4000 < 4000 :=
      Int.emod_lt_of_pos _ (by norm_num)
    rw [generate_eq_normal dev r h]
    dsimp only
    omega
  · intro h
    have hb1 : 0 ≤ ((r % 2 ^ 32 : Nat) : Int) % 30000 :=
      Int.emod_nonneg _ (by norm_num)
    have hb2 : ((r % 2 ^ 32 : Nat) : Int) % 30000 < 30000 :=
      Int.emod_lt_of_pos _ (by norm_num)
    rw [generate_eq_noisy dev r h]
    dsimp only
    constructor <;> split <;> split <;> omega
  · intro h
    rw [generate_eq_ramp dev r h]
    split <;> split <;> dsimp only <;> omega
  · intro h0 h1 h2
    rw [generate_eq_default dev r h0 h1 h2]
    refine ⟨rfl, rfl, ?_⟩
    rw [generate_eq_normal { dev with mode := SIMTEMP_MODE_NORMAL } 2000 rfl]
    norm_num

/-- Witness for claim C7 on the probe-default state carrying the
unrecognized mode tag 7.  -/
theorem claim_C7_generator_range_witness :
    (simtemp_generate_temperature { probeInit with mode := 7 } 123).2 = 45000 ∧
    (simtemp_generate_temperature { probeInit with mode := 7 } 123).1 =
      { probeInit with mode := 7 } := by
  have h := claim_C7_generator_range { probeInit with mode := 7 } 123
    (by decide) (by decide)
  have h4 := h.2.2.2 (by decide) (by decide) (by decide)
  exact ⟨h4.1, h4.2.1⟩

/-- Claim C8: a blocking read whose wait is interrupted by a signal
before data arrives returns −ERESTARTSYS with the device — in
particular the ring buffer — completely untouched and no sample
delivered.  -/
theorem claim_C8_blocking_read_interrupted (dev : SimtempDevice) (count : Nat)
    (copy_ok : Bool) (hc : simtemp_sample_size ≤ count)
    (hempty : dev.ringbuf.head = dev.ringbuf.tail) :
    simtemp_read dev count false true copy_ok = (dev, -ERESTARTSYS, none) := by
  unfold simtemp_read simtemp_ringbuf_empty
  simp [hempty, show ¬ (count < simtemp_sample_size) from by omega]

/-- Witness for claim C8: the probe-initial device (empty buffer) with a
16-byte destination.  -/
theorem claim_C8_blocking_read_interrupted_witness :
    simtemp_sample_size ≤ 16 ∧
    probeInit.ringbuf.head = probeInit.ringbuf.tail ∧
    simtemp_read probeInit 16 false true true = (probeInit, -ERESTARTSYS, none) :=
  ⟨by decide, rfl,
   claim_C8_blocking_read_interrupted probeInit 16 true (by decide) rfl⟩

/-- Claim C9: a read with a destination smaller than the 16-byte sample
wire size fails with −EINVAL before anything is consumed: the device is
returned unchanged and no sample is delivered.  -/
theorem claim_C9_short_buffer_read (dev : SimtempDevice) (count : Nat)
    (nonblock interrupted copy_ok : Bool) (hc : count < simtemp_sample_size) :
    simtemp_read dev count nonblock interrupted copy_ok =
      (dev, -EINVAL, none) := by
  unfold simtemp_read
  rw [if_pos hc]

/-- Witness for claim C9 at a 15-byte destination.  -/
theorem claim_C9_short_buffer_read_witness :
    15 < simtemp_sample_size ∧
    simtemp_read probeInit 15 false false true = (probeInit, -EINVAL, none) :=
  ⟨by decide, claim_C9_short_buffer_read probeInit 15 false false true (by decide)⟩

/-- Claim C10: when copy_to_user fails after the blocking wait found
data, read returns −EFAULT and delivers nothing, but the sample has
already been removed from the ring buffer (tail advanced, head
untouched) and read_count has already been incremented — the sample is
lost to the caller although the read reports failure.  -/
theorem claim_C10_copy_fail_loses_sample (dev : SimtempDevice) (count : Nat)
    (interrupted : Bool) (hc : simtemp_sample_size ≤ count)
    (hnonempty : dev.ringbuf.head ≠ dev.ringbuf.tail) :
    (simtemp_read dev count false interrupted false).2.1 = -EFAULT ∧
    (simtemp_read dev count false interrupted false).2.2 = none ∧
    (simtemp_read dev count false interrupted false).1.ringbuf.tail =
      (dev.ringbuf.tail + 1) % RING_BUFFER_SIZE ∧
    (simtemp_read dev count false interrupted false).1.ringbuf.head =
      dev.ringbuf.head ∧
    (simtemp_read dev count false interrupted false).1.stats.read_count =
      dev.stats.read_count + 1 := by
  have hbeq : (dev.ringbuf.head == dev.ringbuf.tail) = false := by
    simpa using hnonempty
  unfold simtemp_read simtemp_ringbuf_get simtemp_ringbuf_empty
  simp [hbeq, show ¬ (count < simtemp_sample_size) from by omega]

/-- Witness for claim C10: the device after one tick from probe state
(one buffered sample), 16-byte destination, failing copy.  -/
theorem claim_C10_copy_fail_loses_sample_witness :
    simtemp_sample_size ≤ 16 ∧
    (simtemp_timer_callback probeInit 0 0).1.ringbuf.head ≠
      (simtemp_timer_callback probeInit 0 0).1.ringbuf.tail ∧
    (simtemp_read (simtemp_timer_callback probeInit 0 0).1 16 false false false).2.1
      = -EFAULT ∧
    (simtemp_read (simtemp_timer_callback probeInit 0 0).1 16 false false false).1.stats.read_count
      = (simtemp_timer_callback probeInit 0 0).1.stats.read_count + 1 := by
  have h := claim_C10_copy_fail_loses_sample (simtemp_timer_callback probeInit 0 0).1
    16 false (by decide) (by decide)
  exact ⟨by decide, by decide, h.1, h.2.2.2.2⟩

